import Mathlib

/-!
Shallow embedding of the p4p client coordinator (src/src/p4p_client.cpp).

The embedding models the channel connection-state machine and the
Get-Operation lifecycle as explicit state passing over a world record,
with an append-only event trace recording the externally visible actions
(transport exchange creation/destruction, user-callback invocations,
log prints).  The Context channel registry is modelled as a separate
world record.  Python-level fallibility (whether a callback object is
callable, whether value wrapping succeeds, whether the transport accepts
a connection) enters as explicit boolean parameters, mirroring the
run-time checks in the C++ source.
-/

namespace P4PClient

/-- Transport completion/connect status (epics::pvData::Status):
a success flag plus a message text. -/
structure Status where
  isSuccess : Bool
  message : String
deriving DecidableEq, Repr

/-- Request options handed to the transport (pvd::PVStructure built by
buildRequest): either the empty structure or a direct translation of a
host structured value (P4PValue_unwrap). -/
inductive ReqOpts where
  | empty : ReqOpts
  | fromValue : Nat → ReqOpts
deriving DecidableEq, Repr

/-- The user-supplied request descriptor as seen from Python:
None, a string, or an already-structured value. -/
inductive PyReq where
  | pynone : PyReq
  | pystr : String → PyReq
  | structured : Nat → PyReq
deriving DecidableEq, Repr

/-- buildRequest (p4p_client.cpp lines 338-359): None yields an empty
structure, a string throws (pvRequest parsing not implemented), anything
else is unwrapped directly. -/
def buildRequest : PyReq → Except String ReqOpts
  | .pynone => .ok .empty
  | .pystr _ => .error "pvRequest parsing not implemented"
  | .structured v => .ok (.fromValue v)

/-- Argument passed to the user callback in getDone: either a wrapped
result value or an error object carrying the transport message. -/
inductive CbArg where
  | value : Nat → CbArg
  | error : String → CbArg
deriving DecidableEq, Repr

/-- Externally visible actions of the operation/channel layer.
restartCalled marks an invocation of the virtual restart() hook;
exchCreated/exchDestroyed mark createChannelGet and ChannelGet::destroy;
getIssued marks channelGet->get(); cbInvoked marks a user-callback call;
connectFailLogged is the stderr print in channelGetConnect;
errPrinted is the PyErr_Print in getDone. -/
inductive Event where
  | restartCalled : Nat → Event
  | exchCreated : Nat → Event
  | exchDestroyed : Nat → Event
  | getIssued : Nat → Event
  | cbInvoked : Nat → CbArg → Event
  | connectFailLogged : Event
  | errPrinted : Event
deriving DecidableEq, Repr

/-- State of one GetOp: whether its channel back-reference is non-null,
the installed callback (PyRef cb), the in-flight exchange handle
(ChannelGet::shared_pointer op), and the captured request options. -/
structure GetOp where
  hasChannel : Bool
  cb : Option Nat
  op : Option Nat
  req : ReqOpts
deriving DecidableEq, Repr

/-- World for one Channel and its operations: whether the pva channel
handle is non-null (chanOpen), the registered operation set (Channel.ops,
as a duplicate-free list of operation ids), the state of every operation,
fresh-id counters, and the event trace. -/
structure ChanWorld where
  chanOpen : Bool
  ops : List Nat
  st : Nat → GetOp
  nextOp : Nat
  nextExch : Nat
  events : List Event

/-- std::set insert: add the id unless already a member. -/
def insertSet (id : Nat) (l : List Nat) : List Nat :=
  if id ∈ l then l else l ++ [id]

/-- Update the state of one operation. -/
def setSt (w : ChanWorld) (id : Nat) (g : GetOp) : ChanWorld :=
  { w with st := fun j => if j = id then g else w.st j }

/-- OpBase::cancel (lines 89-101): if the channel reference is null,
return false; otherwise remove self from the channel set, returning
whether it was found there. -/
def cancelBase (w : ChanWorld) (id : Nat) : ChanWorld × Bool :=
  if (w.st id).hasChannel then
    if id ∈ w.ops then ({ w with ops := w.ops.erase id }, true)
    else (w, false)
  else (w, false)

/-- GetOp::cancel (lines 556-574): run the base cancel, record whether a
callback was still installed, clear the channel and callback references,
and destroy any in-flight exchange; return the recorded flag. -/
def GetOp.cancel (w : ChanWorld) (id : Nat) : ChanWorld × Bool :=
  let w1 := (cancelBase w id).1
  let g := w1.st id
  let canceled := g.cb.isSome
  let w2 := setSt w1 id { g with hasChannel := false, cb := none, op := none }
  match g.op with
  | some e => ({ w2 with events := w2.events ++ [Event.exchDestroyed e] }, canceled)
  | none => (w2, canceled)

/-- OpBase::py_cancel (lines 492-500): user-level cancel; short-circuits
to false when the channel reference is already null, otherwise returns
what GetOp::cancel returns. -/
def py_cancel (w : ChanWorld) (id : Nat) : ChanWorld × Bool :=
  if (w.st id).hasChannel then GetOp.cancel w id else (w, false)

/-- GetOp::restart (lines 523-539): no-op when the channel reference is
null; otherwise destroy any previous exchange, create a fresh one, store
its handle, and re-insert self into the channel set. -/
def GetOp.restart (w : ChanWorld) (id : Nat) : ChanWorld :=
  let g := w.st id
  if g.hasChannel then
    let w1 := match g.op with
      | some e => { w with events := w.events ++ [Event.exchDestroyed e] }
      | none => w
    let e := w1.nextExch
    let w2 := { w1 with nextExch := e + 1, events := w1.events ++ [Event.exchCreated e] }
    let w3 := setSt w2 id { g with op := some e }
    { w3 with ops := insertSet id w3.ops }
  else w

/-- GetOp::lostConn (lines 541-554): no-op when the channel reference is
null; otherwise re-insert self into the channel set and, if an exchange
is in flight, destroy it (without touching the callback). -/
def GetOp.lostConn (w : ChanWorld) (id : Nat) : ChanWorld :=
  let g := w.st id
  if g.hasChannel then
    let w1 := { w with ops := insertSet id w.ops }
    match g.op with
    | some e =>
      let w2 := setSt w1 id { g with op := none }
      { w2 with events := w2.events ++ [Event.exchDestroyed e] }
    | none => w1
  else w

/-- GetOp::channelGetConnect (lines 576-589): on a non-success status,
log to stderr and do nothing else; on success, issue the data request on
the now-ready exchange handle. -/
def GetOp.channelGetConnect (w : ChanWorld) (status : Status) (exch : Nat) : ChanWorld :=
  if status.isSuccess then { w with events := w.events ++ [Event.getIssued exch] }
  else { w with events := w.events ++ [Event.connectFailLogged] }

/-- GetOp::getDone (lines 591-618): return immediately when no callback
is installed.  Otherwise build the value to pass: on success wrap the
result (wrapOk says whether P4PValue_wrap returned non-null), on failure
build an error object carrying the status message (errOk says whether
that construction returned non-null).  If construction yielded an
object, invoke the callback with it exactly once (cbOk says whether the
callback returned normally); any null outcome is reported via
PyErr_Print and cleared. -/
def GetOp.getDone (w : ChanWorld) (id : Nat) (status : Status) (pv : Nat)
    (wrapOk errOk cbOk : Bool) : ChanWorld :=
  match (w.st id).cb with
  | none => w
  | some c =>
    let V : Option CbArg :=
      if status.isSuccess then
        if wrapOk then some (.value pv) else none
      else
        if errOk then some (.error status.message) else none
    match V with
    | some a =>
      let w1 := { w with events := w.events ++ [Event.cbInvoked c a] }
      if cbOk then w1 else { w1 with events := w1.events ++ [Event.errPrinted] }
    | none => { w with events := w.events ++ [Event.errPrinted] }

/-- pva::Channel::ConnectionState. -/
inductive ConnState where
  | neverConnected | connected | disconnected | destroyed
deriving DecidableEq, Repr

/-- One iteration of the CONNECTED loop in channelStateChange: the
restart() virtual call (recorded in the trace) followed by GetOp::restart. -/
def restartStep (w : ChanWorld) (id : Nat) : ChanWorld :=
  GetOp.restart { w with events := w.events ++ [Event.restartCalled id] } id

/-- Channel::channelStateChange (lines 432-486): NEVER_CONNECTED does
nothing; CONNECTED swaps the operation set out and calls restart() on
each member; DISCONNECTED swaps it out and calls lostConn() on each;
DESTROYED swaps it out and calls cancel() on each. -/
def channelStateChange (w : ChanWorld) (cs : ConnState) : ChanWorld :=
  match cs with
  | .neverConnected => w
  | .connected => w.ops.foldl restartStep { w with ops := [] }
  | .disconnected => w.ops.foldl GetOp.lostConn { w with ops := [] }
  | .destroyed => w.ops.foldl (fun acc id => (GetOp.cancel acc id).1) { w with ops := [] }

/-- Channel::py_get (lines 364-409): fail when the callback is not
callable; fail when the channel handle is null; build the request
options (propagating a builder failure); otherwise create a GetOp with
the callback and options installed, insert it into the channel set and,
if the transport reports the channel connected, invoke restart() on it. -/
def py_get (w : ChanWorld) (cbCallable : Bool) (cb : Nat) (req : PyReq)
    (connected : Bool) : ChanWorld × Except String Nat :=
  if cbCallable then
    if w.chanOpen then
      match buildRequest req with
      | .error e => (w, .error e)
      | .ok r =>
        let id := w.nextOp
        let w1 := setSt { w with nextOp := id + 1 } id
          { hasChannel := true, cb := some cb, op := none, req := r }
        let w2 := { w1 with ops := insertSet id w1.ops }
        if connected then (restartStep w2 id, .ok id) else (w2, .ok id)
    else (w, .error "Channel closed")
  else (w, .error "callable required")

/-- Externally visible actions of the Context layer: a call to
provider->createChannel for a name, and Channel::destroy on a tracked
transport channel. -/
inductive CtxEvent where
  | createCalled : String → CtxEvent
  | chanDestroyed : Nat → CtxEvent
deriving DecidableEq, Repr

/-- Context data (lines 30-48): the provider handle (present while open)
and the name-keyed registry of transport channel handles. -/
structure Context where
  provider : Option Nat
  channels : List (String × Nat)
deriving DecidableEq, Repr

/-- World for one Context: its data, a fresh-handle counter for
transport channels, and the event trace. -/
structure CtxWorld where
  ctx : Context
  nextConn : Nat
  events : List CtxEvent
deriving DecidableEq, Repr

/-- std::map lookup on the registry. -/
def findConn : List (String × Nat) → String → Option Nat
  | [], _ => none
  | (n, c) :: rest, name => if n = name then some c else findConn rest name

/-- Context::py_channel (lines 229-275): fail when the provider handle
has been cleared; otherwise look the name up in the registry and reuse
the stored transport channel, or ask the provider to create one
(createOk says whether the transport returned a handle), registering it
on success and failing otherwise. -/
def py_channel (w : CtxWorld) (name : String) (createOk : Bool) :
    CtxWorld × Except String Nat :=
  match w.ctx.provider with
  | none => (w, .error "Context has been closed")
  | some _ =>
    match findConn w.ctx.channels name with
    | some c => (w, .ok c)
    | none =>
      let c := w.nextConn
      let w1 := { w with nextConn := c + 1,
                         events := w.events ++ [CtxEvent.createCalled name] }
      if createOk then
        ({ w1 with ctx := { w1.ctx with channels := w1.ctx.channels ++ [(name, c)] } },
         .ok c)
      else (w1, .error "Failed to create channel")

/-- Context::close (lines 277-291): no-op when the provider handle is
already cleared; otherwise clear it, swap the registry out, and destroy
every tracked transport channel. -/
def close (w : CtxWorld) : CtxWorld :=
  match w.ctx.provider with
  | none => w
  | some _ =>
    { w with ctx := { provider := none, channels := [] },
             events := w.events ++ w.ctx.channels.map (fun p => CtxEvent.chanDestroyed p.2) }

/-! Sample worlds used by witnesses. -/

/-- A live world: channel open, one operation (id 0) registered with a
callback installed and an exchange in flight. -/
def w0 : ChanWorld :=
  { chanOpen := true, ops := [0],
    st := fun _ => { hasChannel := true, cb := some 7, op := some 3, req := ReqOpts.empty },
    nextOp := 1, nextExch := 4, events := [] }

/-- A closed channel world. -/
def wClosed : ChanWorld :=
  { chanOpen := false, ops := [],
    st := fun _ => { hasChannel := false, cb := none, op := none, req := ReqOpts.empty },
    nextOp := 0, nextExch := 0, events := [] }

/-! Helper lemmas. -/

/-- cancelBase only touches the operation set, never the per-operation states. -/
theorem cancelBase_st (w : ChanWorld) (id : Nat) : (cancelBase w id).1.st = w.st := by
  unfold cancelBase
  split
  · split <;> rfl
  · rfl

/-- After GetOp.cancel, the operation's channel reference and callback are cleared. -/
theorem cancel_clears (w : ChanWorld) (id : Nat) :
    ((GetOp.cancel w id).1.st id).hasChannel = false
  ∧ ((GetOp.cancel w id).1.st id).cb = none
  ∧ ((GetOp.cancel w id).1.st id).op = none := by
  unfold GetOp.cancel
  dsimp only
  split <;> simp [setSt]

/-- GetOp.cancel returns whether a callback was still installed. -/
theorem cancel_snd (w : ChanWorld) (id : Nat) :
    (GetOp.cancel w id).2 = (w.st id).cb.isSome := by
  unfold GetOp.cancel
  dsimp only
  split <;> simp [cancelBase_st]

/-- getDone is a no-op when no callback is installed. -/
theorem getDone_no_cb (w : ChanWorld) (id : Nat) (status : Status) (pv : Nat)
    (wrapOk errOk cbOk : Bool) (h : (w.st id).cb = none) :
    GetOp.getDone w id status pv wrapOk errOk cbOk = w := by
  unfold GetOp.getDone
  simp [h]

/-- C9: the request-options builder: an absent descriptor (None) yields
empty request options, an already-structured value is translated
directly, and every textual descriptor fails unconditionally. -/
theorem buildRequest_spec :
    buildRequest PyReq.pynone = Except.ok ReqOpts.empty
  ∧ (∀ v, buildRequest (PyReq.structured v) = Except.ok (ReqOpts.fromValue v))
  ∧ (∀ s, buildRequest (PyReq.pystr s) = Except.error "pvRequest parsing not implemented") :=
  ⟨rfl, fun _ => rfl, fun _ => rfl⟩

/-- C8: a connect-phase notification with non-success status only logs
(the resulting world differs from the input only by the log event: no
data request is issued, no callback fires, no state changes); on success
the data request is issued against the exchange handle. -/
theorem channelGetConnect_spec (w : ChanWorld) (status : Status) (exch : Nat) :
    (status.isSuccess = false →
      GetOp.channelGetConnect w status exch
        = { w with events := w.events ++ [Event.connectFailLogged] })
  ∧ (status.isSuccess = true →
      GetOp.channelGetConnect w status exch
        = { w with events := w.events ++ [Event.getIssued exch] }) := by
  constructor <;> intro h <;> simp [GetOp.channelGetConnect, h]

/-- Witness for C8 at a concrete world and a failed status. -/
theorem channelGetConnect_spec_witness :
    GetOp.channelGetConnect w0 ⟨false, "timeout"⟩ 3
      = { w0 with events := w0.events ++ [Event.connectFailLogged] } :=
  (channelGetConnect_spec w0 ⟨false, "timeout"⟩ 3).1 rfl

/-- C7: Channel.py_get fails synchronously when the callback is not
callable and when the channel is closed; in both failing cases the world
is returned unchanged, so no transport call is made and no operation is
registered. -/
theorem py_get_fail_spec (w : ChanWorld) (cb : Nat) (req : PyReq) (connected : Bool) :
    py_get w false cb req connected = (w, Except.error "callable required")
  ∧ (w.chanOpen = false →
      py_get w true cb req connected = (w, Except.error "Channel closed")) := by
  refine ⟨by simp [py_get], fun h => by simp [py_get, h]⟩

/-- Witness for C7 at a concrete closed-channel world. -/
theorem py_get_fail_spec_witness :
    py_get wClosed false 7 PyReq.pynone true = (wClosed, Except.error "callable required")
  ∧ py_get wClosed true 7 PyReq.pynone true = (wClosed, Except.error "Channel closed") :=
  ⟨(py_get_fail_spec wClosed 7 PyReq.pynone true).1,
   (py_get_fail_spec wClosed 7 PyReq.pynone true).2 rfl⟩

/-- C5: on a completion notification with a callback still installed and
value construction succeeding, the callback is invoked exactly once:
with the wrapped value on success, with an error carrying the transport
message on failure (followed by an error print if the callback itself
raises); with no callback installed, nothing at all happens. -/
theorem getDone_spec (w : ChanWorld) (id : Nat) (status : Status) (pv : Nat) (cbOk : Bool) :
    (∀ c, (w.st id).cb = some c →
      (GetOp.getDone w id status pv true true cbOk).events =
        w.events
          ++ [Event.cbInvoked c
                (if status.isSuccess then CbArg.value pv else CbArg.error status.message)]
          ++ (if cbOk then [] else [Event.errPrinted]))
  ∧ ((w.st id).cb = none → GetOp.getDone w id status pv true true cbOk = w) := by
  constructor
  · intro c hc
    unfold GetOp.getDone
    simp [hc]
    cases status.isSuccess <;> cases cbOk <;> simp
  · exact getDone_no_cb w id status pv true true cbOk

/-- Witness for C5: a successful completion with the sample callback. -/
theorem getDone_spec_witness :
    (GetOp.getDone w0 0 ⟨true, ""⟩ 5 true true true).events =
      w0.events ++ [Event.cbInvoked 7 (CbArg.value 5)] := by
  have h := (getDone_spec w0 0 ⟨true, ""⟩ 5 true).1 7 rfl
  simpa using h

/-- C10: with a callback installed but construction of the value to pass
failing (wrapping on success, or building the error object on failure),
the callback is never invoked: the only effect is the error print. -/
theorem getDone_nullValue_spec (w : ChanWorld) (id : Nat) (status : Status) (pv : Nat)
    (wrapOk errOk cbOk : Bool) (c : Nat) (hc : (w.st id).cb = some c) :
    (status.isSuccess = true → wrapOk = false →
      GetOp.getDone w id status pv wrapOk errOk cbOk
        = { w with events := w.events ++ [Event.errPrinted] })
  ∧ (status.isSuccess = false → errOk = false →
      GetOp.getDone w id status pv wrapOk errOk cbOk
        = { w with events := w.events ++ [Event.errPrinted] }) := by
  constructor <;> intro h1 h2 <;> unfold GetOp.getDone <;> simp [hc, h1, h2]

/-- Witness for C10: a successful completion whose wrap fails. -/
theorem getDone_nullValue_spec_witness :
    GetOp.getDone w0 0 ⟨true, ""⟩ 5 false true true
      = { w0 with events := w0.events ++ [Event.errPrinted] } :=
  (getDone_nullValue_spec w0 0 ⟨true, ""⟩ 5 false true true 7 rfl).1 rfl rfl

/-- C1: user-level cancel() is idempotent: the first call returns true
exactly when the channel reference and a callback are still present,
every subsequent call returns false, and after a cancel() that returned
true a later completion notification for the operation does nothing (in
particular the user callback is never invoked). -/
theorem cancel_idempotent (w : ChanWorld) (id : Nat) :
    (py_cancel w id).2 = ((w.st id).hasChannel && (w.st id).cb.isSome)
  ∧ (py_cancel (py_cancel w id).1 id).2 = false
  ∧ ((py_cancel w id).2 = true →
      ∀ (status : Status) (pv : Nat) (wrapOk errOk cbOk : Bool),
        GetOp.getDone (py_cancel w id).1 id status pv wrapOk errOk cbOk
          = (py_cancel w id).1) := by
  cases h : (w.st id).hasChannel with
  | false =>
    have h1 : py_cancel w id = (w, false) := by simp [py_cancel, h]
    refine ⟨by rw [h1]; simp [h], by rw [h1]; simp [py_cancel, h], ?_⟩
    intro hc
    rw [h1] at hc
    simp at hc
  | true =>
    have h1 : py_cancel w id = GetOp.cancel w id := by simp [py_cancel, h]
    have h2 := cancel_clears w id
    refine ⟨?_, ?_, ?_⟩
    · rw [h1, cancel_snd]
      simp [h]
    · rw [h1]
      simp [py_cancel, h2.1]
    · intro _ status pv wrapOk errOk cbOk
      rw [h1]
      exact getDone_no_cb _ id status pv wrapOk errOk cbOk h2.2.1

/-- Witness for C1 at the sample world: the first cancel returns true,
the second returns false, and a later completion is a no-op. -/
theorem cancel_idempotent_witness :
    (py_cancel w0 0).2 = true
  ∧ (py_cancel (py_cancel w0 0).1 0).2 = false
  ∧ GetOp.getDone (py_cancel w0 0).1 0 ⟨true, ""⟩ 5 true true true = (py_cancel w0 0).1 := by
  obtain ⟨a, b, c⟩ := cancel_idempotent w0 0
  exact ⟨by rw [a]; decide, b, c (by rw [a]; decide) ⟨true, ""⟩ 5 true true true⟩

/-- A context world with one registered channel, used by witnesses. -/
def ctx0 : CtxWorld :=
  { ctx := { provider := some 1, channels := [("A", 5)] }, nextConn := 6, events := [] }

/-- C3: Context.close() clears the provider handle, destroys every
tracked channel, clears the registry, is idempotent, and afterwards
every channel(name) call fails synchronously without any action. -/
theorem close_spec (w : CtxWorld) (p : Nat) (h : w.ctx.provider = some p) :
    (close w).ctx.provider = none
  ∧ (close w).ctx.channels = []
  ∧ (close w).events = w.events ++ w.ctx.channels.map (fun q => CtxEvent.chanDestroyed q.2)
  ∧ close (close w) = close w
  ∧ (∀ name createOk,
      py_channel (close w) name createOk = (close w, Except.error "Context has been closed")) := by
  refine ⟨?_, ?_, ?_, ?_, ?_⟩ <;> simp [close, py_channel, h]

/-- Witness for C3 at a concrete open context. -/
theorem close_spec_witness :
    (close ctx0).ctx.provider = none
  ∧ (close ctx0).ctx.channels = []
  ∧ (close ctx0).events = ctx0.events ++ ctx0.ctx.channels.map (fun q => CtxEvent.chanDestroyed q.2)
  ∧ close (close ctx0) = close ctx0
  ∧ py_channel (close ctx0) "B" true = (close ctx0, Except.error "Context has been closed") := by
  obtain ⟨a, b, c, d, e⟩ := close_spec ctx0 1 rfl
  exact ⟨a, b, c, d, e "B" true⟩

/-- findConn misses exactly when the name is not a registry key. -/
theorem findConn_eq_none (l : List (String × Nat)) (name : String) :
    findConn l name = none ↔ name ∉ l.map Prod.fst := by
  induction l with
  | nil => simp [findConn]
  | cons hd tl ih =>
    obtain ⟨n, c⟩ := hd
    by_cases h : n = name
    · subst h
      simp [findConn]
    · have hskip : findConn ((n, c) :: tl) name = findConn tl name := by
        simp [findConn, h]
      rw [hskip, ih, List.map_cons, List.mem_cons]
      have hne : ¬name = n := fun hx => h hx.symm
      tauto

/-- Appending a fresh binding makes findConn hit it. -/
theorem findConn_append (l : List (String × Nat)) (name : String) (c : Nat)
    (h : findConn l name = none) : findConn (l ++ [(name, c)]) name = some c := by
  induction l with
  | nil => simp [findConn]
  | cons hd tl ih =>
    obtain ⟨n, a⟩ := hd
    by_cases hn : n = name
    · simp [findConn, hn] at h
    · simp [findConn, hn] at h ⊢
      exact ih h

/-- py_channel preserves key uniqueness of the registry. -/
theorem py_channel_nodup (w : CtxWorld) (name : String) (ok : Bool)
    (h : (w.ctx.channels.map Prod.fst).Nodup) :
    ((py_channel w name ok).1.ctx.channels.map Prod.fst).Nodup := by
  cases hp : w.ctx.provider with
  | none => simpa [py_channel, hp] using h
  | some p =>
    cases hf : findConn w.ctx.channels name with
    | some c => simpa [py_channel, hp, hf] using h
    | none =>
      cases ok with
      | false => simpa [py_channel, hp, hf] using h
      | true =>
        have hmem : name ∉ w.ctx.channels.map Prod.fst := (findConn_eq_none _ _).1 hf
        have hch : (py_channel w name true).1.ctx.channels
            = w.ctx.channels ++ [(name, w.nextConn)] := by
          simp [py_channel, hp, hf]
        rw [hch, List.map_append]
        refine List.Nodup.append h (List.nodup_singleton name) ?_
        intro a ha hb
        simp at hb
        subst hb
        exact hmem ha

/-- C4: the registry keeps at most one transport connection per name
(key uniqueness is preserved by every channel() call), and two
sequential channel(name) calls for a fresh name return the same
connection handle while asking the transport to create a connection
exactly once. -/
theorem channel_dedup_spec (w : CtxWorld) (name : String) :
    ((w.ctx.channels.map Prod.fst).Nodup → ∀ ok,
        ((py_channel w name ok).1.ctx.channels.map Prod.fst).Nodup)
  ∧ (∀ p, w.ctx.provider = some p → findConn w.ctx.channels name = none →
        (py_channel w name true).2 = Except.ok w.nextConn
      ∧ (py_channel (py_channel w name true).1 name true).2 = Except.ok w.nextConn
      ∧ (py_channel (py_channel w name true).1 name true).1 = (py_channel w name true).1
      ∧ ((py_channel (py_channel w name true).1 name true).1.events).drop w.events.length
          = [CtxEvent.createCalled name]) := by
  refine ⟨fun h ok => py_channel_nodup w name ok h, ?_⟩
  intro p hp hf
  have h1 : py_channel w name true
      = ({ w with nextConn := w.nextConn + 1,
                  events := w.events ++ [CtxEvent.createCalled name],
                  ctx := { w.ctx with
                           channels := w.ctx.channels ++ [(name, w.nextConn)] } },
         Except.ok w.nextConn) := by
    simp [py_channel, hp, hf]
  have h2 : findConn (w.ctx.channels ++ [(name, w.nextConn)]) name = some w.nextConn :=
    findConn_append _ _ _ hf
  refine ⟨by rw [h1], ?_, ?_, ?_⟩ <;> rw [h1] <;> simp [py_channel, hp, h2]

/-- Witness for C4: a fresh name on the sample context. -/
theorem channel_dedup_spec_witness :
    ((py_channel ctx0 "B" true).1.ctx.channels.map Prod.fst).Nodup
  ∧ (py_channel ctx0 "B" true).2 = Except.ok ctx0.nextConn
  ∧ (py_channel (py_channel ctx0 "B" true).1 "B" true).2 = Except.ok ctx0.nextConn
  ∧ (py_channel (py_channel ctx0 "B" true).1 "B" true).1 = (py_channel ctx0 "B" true).1
  ∧ ((py_channel (py_channel ctx0 "B" true).1 "B" true).1.events).drop ctx0.events.length
      = [CtxEvent.createCalled "B"] := by
  obtain ⟨h1, h2⟩ := channel_dedup_spec ctx0 "B"
  obtain ⟨a, b, c, d⟩ := h2 1 rfl (by decide)
  exact ⟨h1 (by decide) true, a, b, c, d⟩

/-! Machinery for the state-machine claims (C2, C6). -/

/-- Membership after a set insert. -/
theorem insertSet_mem (id j : Nat) (l : List Nat) :
    j ∈ insertSet id l ↔ j ∈ l ∨ j = id := by
  unfold insertSet
  by_cases h : id ∈ l
  · simp only [if_pos h]
    constructor
    · exact Or.inl
    · rintro (hj | rfl)
      · exact hj
      · exact h
  · simp [if_neg h]

/-- Set insert preserves duplicate-freedom. -/
theorem insertSet_nodup (id : Nat) (l : List Nat) (h : l.Nodup) :
    (insertSet id l).Nodup := by
  unfold insertSet
  by_cases hm : id ∈ l
  · simpa [if_pos hm]
  · rw [if_neg hm]
    exact h.append (List.nodup_singleton id) (by
      intro a ha hb
      simp at hb
      subst hb
      exact hm ha)

/-- lostConn never changes any operation's channel reference flag. -/
theorem lostConn_hasChannel (w : ChanWorld) (id j : Nat) :
    ((GetOp.lostConn w id).st j).hasChannel = (w.st j).hasChannel := by
  unfold GetOp.lostConn
  dsimp only
  cases h : (w.st id).hasChannel with
  | false => simp [h]
  | true =>
    cases ho : (w.st id).op with
    | some e =>
      simp only [h, if_true, ho, setSt]
      by_cases hj : j = id <;> simp [hj, h]
    | none => simp [h, ho]

/-- The operation set after lostConn. -/
theorem lostConn_ops (w : ChanWorld) (id : Nat) :
    (GetOp.lostConn w id).ops
      = if (w.st id).hasChannel then insertSet id w.ops else w.ops := by
  unfold GetOp.lostConn
  dsimp only
  cases h : (w.st id).hasChannel with
  | false => simp [h]
  | true => cases ho : (w.st id).op <;> simp [h, ho, setSt]

/-- lostConn only appends exchange-teardown events: no restart()
invocation and no callback invocation is recorded. -/
theorem lostConn_events (w : ChanWorld) (id : Nat) :
    ∃ t, (GetOp.lostConn w id).events = w.events ++ t
      ∧ (∀ j, Event.restartCalled j ∉ t) ∧ (∀ c a, Event.cbInvoked c a ∉ t) := by
  unfold GetOp.lostConn
  dsimp only
  cases h : (w.st id).hasChannel with
  | false => exact ⟨[], by simp [h], by simp, by simp⟩
  | true =>
    cases ho : (w.st id).op with
    | some e =>
      refine ⟨[Event.exchDestroyed e], ?_, by simp, by simp⟩
      simp [h, ho, setSt]
    | none => exact ⟨[], by simp [h, ho], by simp, by simp⟩

/-- restart only appends exchange events beyond its entry marker. -/
theorem restart_events (w : ChanWorld) (id : Nat) :
    ∃ t, (GetOp.restart w id).events = w.events ++ t
      ∧ (∀ j, Event.restartCalled j ∉ t) ∧ (∀ c a, Event.cbInvoked c a ∉ t) := by
  unfold GetOp.restart
  dsimp only
  cases h : (w.st id).hasChannel with
  | false => exact ⟨[], by simp [h], by simp, by simp⟩
  | true =>
    cases ho : (w.st id).op with
    | some e =>
      refine ⟨[Event.exchDestroyed e, Event.exchCreated w.nextExch], ?_, by simp, by simp⟩
      simp [h, ho, setSt]
    | none =>
      refine ⟨[Event.exchCreated w.nextExch], ?_, by simp, by simp⟩
      simp [h, ho, setSt]

/-- One CONNECTED-loop iteration appends exactly one restart() marker
for its operation and no callback invocation. -/
theorem restartStep_events (w : ChanWorld) (id : Nat) :
    ∃ t, (restartStep w id).events = w.events ++ Event.restartCalled id :: t
      ∧ (∀ j, Event.restartCalled j ∉ t) ∧ (∀ c a, Event.cbInvoked c a ∉ t) := by
  obtain ⟨t, ht, h1, h2⟩ :=
    restart_events { w with events := w.events ++ [Event.restartCalled id] } id
  refine ⟨t, ?_, h1, h2⟩
  unfold restartStep
  rw [ht]
  simp

/-- Trace of the CONNECTED fan-out: each operation id in the processed
list gets exactly as many restart() markers as its multiplicity, and no
callback invocation is recorded. -/
theorem connFold_events (l : List Nat) (acc : ChanWorld) :
    ∃ t, (l.foldl restartStep acc).events = acc.events ++ t
      ∧ (∀ j, t.count (Event.restartCalled j) = l.count j)
      ∧ (∀ c a, Event.cbInvoked c a ∉ t) := by
  induction l generalizing acc with
  | nil => exact ⟨[], by simp, by simp, by simp⟩
  | cons id tl ih =>
    obtain ⟨t1, ht1, hr1, hn1⟩ := restartStep_events acc id
    obtain ⟨t2, ht2, hc2, hn2⟩ := ih (restartStep acc id)
    refine ⟨Event.restartCalled id :: (t1 ++ t2), ?_, ?_, ?_⟩
    · rw [List.foldl_cons, ht2, ht1]
      simp
    · intro j
      rw [List.count_cons, List.count_append,
        List.count_eq_zero.mpr (hr1 j), hc2 j, List.count_cons]
      by_cases hj : j = id <;> simp [hj]
    · intro c a
      simp [hn1 c a, hn2 c a]

/-- Effect of the DISCONNECTED fan-out: channel-reference flags are
untouched, the set ends up holding exactly the old members plus the
processed ids (without duplicates), and the trace gains no restart()
marker and no callback invocation. -/
theorem discFold (l : List Nat) (acc : ChanWorld) :
    (∀ j, ((l.foldl GetOp.lostConn acc).st j).hasChannel = (acc.st j).hasChannel)
  ∧ ((∀ j ∈ l, (acc.st j).hasChannel = true) →
      ∀ j, (j ∈ (l.foldl GetOp.lostConn acc).ops ↔ j ∈ acc.ops ∨ j ∈ l))
  ∧ (acc.ops.Nodup → (l.foldl GetOp.lostConn acc).ops.Nodup)
  ∧ (∃ t, (l.foldl GetOp.lostConn acc).events = acc.events ++ t
      ∧ (∀ j, Event.restartCalled j ∉ t) ∧ (∀ c a, Event.cbInvoked c a ∉ t)) := by
  induction l generalizing acc with
  | nil =>
    refine ⟨fun j => rfl, fun _ j => by simp, fun h => h, ⟨[], by simp, by simp, by simp⟩⟩
  | cons id tl ih =>
    obtain ⟨ih1, ih2, ih3, ih4⟩ := ih (GetOp.lostConn acc id)
    refine ⟨?_, ?_, ?_, ?_⟩
    · intro j
      rw [List.foldl_cons, ih1 j, lostConn_hasChannel]
    · intro hch j
      have hid : (acc.st id).hasChannel = true := hch id (by simp)
      have hops : (GetOp.lostConn acc id).ops = insertSet id acc.ops := by
        rw [lostConn_ops, if_pos hid]
      have hch2 : ∀ j ∈ tl, ((GetOp.lostConn acc id).st j).hasChannel = true := by
        intro j hj
        rw [lostConn_hasChannel]
        exact hch j (by simp [hj])
      rw [List.foldl_cons, ih2 hch2 j, hops, insertSet_mem]
      constructor
      · rintro ((hj | rfl) | hj)
        · exact Or.inl hj
        · exact Or.inr (by simp)
        · exact Or.inr (by simp [hj])
      · rintro (hj | hj)
        · exact Or.inl (Or.inl hj)
        · rcases List.mem_cons.mp hj with rfl | hj
          · exact Or.inl (Or.inr rfl)
          · exact Or.inr hj
    · intro hnd
      apply ih3
      rw [lostConn_ops]
      by_cases hc : (acc.st id).hasChannel = true
      · rw [if_pos hc]
        exact insertSet_nodup id acc.ops hnd
      · rw [if_neg hc]
        exact hnd
    · obtain ⟨t1, ht1, hr1, hn1⟩ := lostConn_events acc id
      obtain ⟨t2, ht2, hr2, hn2⟩ := ih4
      refine ⟨t1 ++ t2, ?_, ?_, ?_⟩
      · rw [List.foldl_cons, ht2, ht1, List.append_assoc]
      · intro j
        simp [hr1 j, hr2 j]
      · intro c a
        simp [hn1 c a, hn2 c a]

/-- C2: after Connected → Disconnected → Connected, the disconnect
fan-out re-registers exactly the previously registered operations
(lostConn re-inserts each into the set), and the trace added by the two
transitions records exactly one restart() invocation per registered
operation and no completion callback at all — the exchanges abandoned at
the disconnect produce zero completions. -/
theorem reconnect_spec (w : ChanWorld)
    (hch : ∀ j ∈ w.ops, (w.st j).hasChannel = true) :
    (∀ j, j ∈ (channelStateChange w ConnState.disconnected).ops ↔ j ∈ w.ops)
  ∧ (∀ j, (((channelStateChange (channelStateChange w ConnState.disconnected)
        ConnState.connected).events).drop w.events.length).count (Event.restartCalled j)
        = if j ∈ w.ops then 1 else 0)
  ∧ (∀ c a, Event.cbInvoked c a
      ∉ ((channelStateChange (channelStateChange w ConnState.disconnected)
          ConnState.connected).events).drop w.events.length) := by
  have hd : channelStateChange w ConnState.disconnected
      = w.ops.foldl GetOp.lostConn { w with ops := [] } := rfl
  obtain ⟨d1, d2, d3, t1, ht1, hr1, hn1⟩ := discFold w.ops { w with ops := [] }
  have hmem : ∀ j, j ∈ (channelStateChange w ConnState.disconnected).ops ↔ j ∈ w.ops := by
    intro j
    rw [hd, d2 hch j]
    simp
  have hnd1 : (channelStateChange w ConnState.disconnected).ops.Nodup := by
    rw [hd]
    exact d3 (by simp)
  have hc : channelStateChange (channelStateChange w ConnState.disconnected)
        ConnState.connected
      = (channelStateChange w ConnState.disconnected).ops.foldl restartStep
        { channelStateChange w ConnState.disconnected with ops := [] } := rfl
  obtain ⟨t2, ht2, hc2, hn2⟩ := connFold_events
    (channelStateChange w ConnState.disconnected).ops
    { channelStateChange w ConnState.disconnected with ops := [] }
  have hev : (channelStateChange (channelStateChange w ConnState.disconnected)
        ConnState.connected).events = w.events ++ (t1 ++ t2) := by
    rw [hc, ht2]
    show (channelStateChange w ConnState.disconnected).events ++ t2 = _
    rw [hd, ht1]
    show (w.events ++ t1) ++ t2 = _
    rw [List.append_assoc]
  have hdrop : ((channelStateChange (channelStateChange w ConnState.disconnected)
        ConnState.connected).events).drop w.events.length = t1 ++ t2 := by
    rw [hev, List.drop_left]
  refine ⟨hmem, ?_, ?_⟩
  · intro j
    rw [hdrop, List.count_append, List.count_eq_zero.mpr (hr1 j), hc2 j]
    by_cases hj : j ∈ w.ops
    · rw [if_pos hj, Nat.zero_add]
      exact List.count_eq_one_of_mem hnd1 ((hmem j).mpr hj)
    · rw [if_neg hj, Nat.zero_add]
      exact List.count_eq_zero.mpr (fun hx => hj ((hmem j).mp hx))
  · intro c a
    rw [hdrop]
    simp [hn1 c a, hn2 c a]

/-- Witness for C2 at the sample world (one registered operation with an
in-flight exchange). -/
theorem reconnect_spec_witness :
    (0 ∈ (channelStateChange w0 ConnState.disconnected).ops ↔ 0 ∈ w0.ops)
  ∧ (((channelStateChange (channelStateChange w0 ConnState.disconnected)
        ConnState.connected).events).drop w0.events.length).count (Event.restartCalled 0) = 1
  ∧ Event.cbInvoked 7 (CbArg.value 5)
      ∉ ((channelStateChange (channelStateChange w0 ConnState.disconnected)
          ConnState.connected).events).drop w0.events.length := by
  obtain ⟨a, b, c⟩ := reconnect_spec w0 (by decide)
  refine ⟨a 0, ?_, c 7 (CbArg.value 5)⟩
  have hb := b 0
  simpa using hb

/-- An operation state with channel reference, callback and exchange all
released: the permanent post-cancellation state. -/
def cleared (g : GetOp) : Prop :=
  g.hasChannel = false ∧ g.cb = none ∧ g.op = none

instance (g : GetOp) : Decidable (cleared g) := by
  unfold cleared
  infer_instance

/-- GetOp.cancel leaves the states of other operations untouched. -/
theorem cancel_st_frame (w : ChanWorld) (id j : Nat) (hj : j ≠ id) :
    (GetOp.cancel w id).1.st j = w.st j := by
  unfold GetOp.cancel
  dsimp only
  split <;> simp [setSt, hj, cancelBase_st]

/-- GetOp.cancel never re-inserts into the operation set. -/
theorem cancel_ops_nil (w : ChanWorld) (id : Nat) (h : w.ops = []) :
    (GetOp.cancel w id).1.ops = [] := by
  have hb : (cancelBase w id).1 = w := by
    unfold cancelBase
    simp [h]
  unfold GetOp.cancel
  dsimp only
  rw [hb]
  split <;> simp [setSt, h]

/-- Effect of the DESTROYED fan-out: an empty set stays empty, every
processed operation ends cleared, and already-cleared operations stay
cleared. -/
theorem destFold (l : List Nat) (acc : ChanWorld) :
    (acc.ops = [] → (l.foldl (fun a id => (GetOp.cancel a id).1) acc).ops = [])
  ∧ (∀ j ∈ l, cleared ((l.foldl (fun a id => (GetOp.cancel a id).1) acc).st j))
  ∧ (∀ j, cleared (acc.st j) →
      cleared ((l.foldl (fun a id => (GetOp.cancel a id).1) acc).st j)) := by
  induction l generalizing acc with
  | nil => exact ⟨fun h => h, fun j hj => absurd hj (List.not_mem_nil j), fun j h => h⟩
  | cons id tl ih =>
    obtain ⟨ih1, ih2, ih3⟩ := ih (GetOp.cancel acc id).1
    have hcl : cleared ((GetOp.cancel acc id).1.st id) := by
      obtain ⟨a, b, c⟩ := cancel_clears acc id
      exact ⟨a, b, c⟩
    refine ⟨?_, ?_, ?_⟩
    · intro h
      rw [List.foldl_cons]
      exact ih1 (cancel_ops_nil acc id h)
    · intro j hj
      rw [List.foldl_cons]
      rcases List.mem_cons.mp hj with rfl | hj
      · exact ih3 j hcl
      · exact ih2 j hj
    · intro j hc
      rw [List.foldl_cons]
      by_cases hj : j = id
      · subst hj
        exact ih3 j hcl
      · refine ih3 j ?_
        rw [cancel_st_frame acc id j hj]
        exact hc

/-- restart is permanently disabled on a cleared operation. -/
theorem restart_noop (w : ChanWorld) (id : Nat)
    (h : (w.st id).hasChannel = false) : GetOp.restart w id = w := by
  unfold GetOp.restart
  dsimp only
  simp [h]

/-- C6: the Destroyed transition cancels every registered operation:
the set is left empty, each previously registered operation has its
channel reference, callback and exchange handle cleared, and restart on
any of them is a permanent no-op. -/
theorem destroyed_spec (w : ChanWorld) :
    (channelStateChange w ConnState.destroyed).ops = []
  ∧ (∀ j ∈ w.ops, cleared ((channelStateChange w ConnState.destroyed).st j))
  ∧ (∀ j ∈ w.ops,
      GetOp.restart (channelStateChange w ConnState.destroyed) j
        = channelStateChange w ConnState.destroyed) := by
  have hd : channelStateChange w ConnState.destroyed
      = w.ops.foldl (fun a id => (GetOp.cancel a id).1) { w with ops := [] } := rfl
  obtain ⟨f1, f2, f3⟩ := destFold w.ops { w with ops := [] }
  refine ⟨by rw [hd]; exact f1 rfl, by rw [hd]; exact f2, ?_⟩
  intro j hj
  have hcl : cleared ((channelStateChange w ConnState.destroyed).st j) := by
    rw [hd]
    exact f2 j hj
  exact restart_noop _ j hcl.1

/-- Witness for C6 at the sample world. -/
theorem destroyed_spec_witness :
    (channelStateChange w0 ConnState.destroyed).ops = []
  ∧ cleared ((channelStateChange w0 ConnState.destroyed).st 0)
  ∧ GetOp.restart (channelStateChange w0 ConnState.destroyed) 0
      = channelStateChange w0 ConnState.destroyed := by
  obtain ⟨a, b, c⟩ := destroyed_spec w0
  exact ⟨a, b 0 (by decide), c 0 (by decide)⟩

end P4PClient
